import Mathlib

/-!
Verification development for the Alza email-bot retrieval-augmented answer
pipeline.  The repository contains two variants of the pipeline core:

* `src/mainfunc.py` — the monolithic cloud function (namespace `Mainfunc`);
* `src/main.py` + `src/modules/ai_core.py` — the modular variant
  (namespace `AiCore`).

External services (retrieval, generation, clock, RNG) are modelled as
oracles passed in explicitly: an oracle `Nat → RagAttempt` gives the outcome
of the retrieval call made on attempt `n`, and jitter functions `Nat → ℚ`
give the random additive components of the backoff delays.  Python loops
`for attempt in range(max_retries)` are translated into structural recursion
on the remaining number of iterations `fuel`, with the invariant
`max_retries = attempt + fuel` at each iteration; conditions written on
`attempt`/`max_retries` in the source are expressed through `fuel` where the
two are equivalent under that invariant, and each translation is noted at
the definition.
-/

/-- A text chunk returned by the retrieval service
(`response.contexts` entries in `_process_rag_response`).  `source_uri` is
`none` when the attribute is absent; Python's truthiness test
`if ... context.source_uri:` additionally treats an empty string as absent. -/
structure RagChunk where
  text : String
  source_uri : Option String
deriving DecidableEq, Repr

/-- Outcome of one call to `rag.retrieval_query`: a successful response with
its chunk list, a `ResourceExhausted` exception, a `RuntimeError`, or any
other exception, each carrying `str(e)`. -/
inductive RagAttempt where
  | ok (chunks : List RagChunk)
  | resourceExhausted (msg : String)
  | runtimeError (msg : String)
  | exception (msg : String)
deriving DecidableEq, Repr

/-- A retrieval request as issued by `rag.retrieval_query`: the query text
(`query.strip()`), the configured `top_k`, and whether a `ranking`
configuration (the LLM reranking pass) was attached. -/
structure RagRequest where
  text : String
  topK : Nat
  reranked : Bool
deriving DecidableEq, Repr

/-- `needle` occurs as a contiguous sublist of `haystack`. -/
def listContainsSub (haystack needle : List Char) : Bool :=
  match haystack with
  | [] => needle.isEmpty
  | _ :: t => needle.isPrefixOf haystack || listContainsSub t needle

/-- Python `needle in haystack` on strings. -/
def strContains (haystack needle : String) : Bool :=
  listContainsSub haystack.toList needle.toList

/-- Python's default whitespace set for `str.strip` / `str.rstrip`. -/
def isPySpace (c : Char) : Bool :=
  c = ' ' || c = '\t' || c = '\n' || c = '\r' || c = '\x0b' || c = '\x0c'

/-- Python `s.rstrip()`. -/
def pyRstrip (s : String) : String :=
  ⟨(s.data.reverse.dropWhile isPySpace).reverse⟩

/-- Python `s.lstrip()`. -/
def pyLstrip (s : String) : String :=
  ⟨s.data.dropWhile isPySpace⟩

/-- Python `s.strip()`. -/
def pyStrip (s : String) : String :=
  pyRstrip (pyLstrip s)

/-- Outcome of one invocation of a function wrapped by a retry helper:
a returned value, a `ResourceExhausted` exception, or any other exception. -/
inductive CallOutcome (α : Type) where
  | ok (v : α)
  | quota (msg : String)
  | err (msg : String)
deriving DecidableEq, Repr

/-- What a Python retry helper does, as observed by its caller: return a
value, let an exception propagate, or fall off the loop returning `None`
(only possible when `max_retries = 0`). -/
inductive RetryResult (α : Type) where
  | value (v : α)
  | raised (msg : String)
  | fellThrough
deriving DecidableEq, Repr

/-- Trace of a retry helper run: its caller-visible result, the number of
invocations of the wrapped function, and the delays slept, in order. -/
structure RetryTrace (α : Type) where
  result : RetryResult α
  calls : Nat
  sleeps : List ℚ
deriving DecidableEq, Repr

namespace Mainfunc

/-- `mainfunc._retry_llm_call`, loop body.  `fuel` counts the remaining
iterations (`fuel + 1 + attempt = max_retries` inside the loop); the
source's last-attempt test `attempt == max_retries - 1` is `fuel = 0`.
Quota errors sleep `base_delay * (3 ** attempt) + uniform(1, 3)`; other
errors sleep `base_delay * (2 ** attempt) + uniform(0, 1)`; the jitter
draws are the inputs `jq attempt` and `jo attempt`. -/
def retry_llm_call_loop {α : Type} (f : Nat → CallOutcome α) (jq jo : Nat → ℚ)
    (base_delay : ℚ) : Nat → Nat → RetryTrace α
  | 0, _ => ⟨.fellThrough, 0, []⟩
  | fuel + 1, attempt =>
    match f attempt with
    | .ok v => ⟨.value v, 1, []⟩
    | .quota m =>
      if fuel = 0 then ⟨.raised m, 1, []⟩
      else
        let rest := retry_llm_call_loop f jq jo base_delay fuel (attempt + 1)
        ⟨rest.result, rest.calls + 1, (base_delay * 3 ^ attempt + jq attempt) :: rest.sleeps⟩
    | .err m =>
      if fuel = 0 then ⟨.raised m, 1, []⟩
      else
        let rest := retry_llm_call_loop f jq jo base_delay fuel (attempt + 1)
        ⟨rest.result, rest.calls + 1, (base_delay * 2 ^ attempt + jo attempt) :: rest.sleeps⟩

/-- `mainfunc._retry_llm_call(func, max_retries=3, base_delay=2.0)`. -/
def retry_llm_call {α : Type} (f : Nat → CallOutcome α) (jq jo : Nat → ℚ)
    (max_retries : Nat) (base_delay : ℚ) : RetryTrace α :=
  retry_llm_call_loop f jq jo base_delay max_retries 0

end Mainfunc

namespace AiCore

/-- `ai_core._retry_llm_call`, loop body.  A single `except Exception`
clause catches every failure (including `ResourceExhausted`), re-raises on
the last attempt, and otherwise sleeps
`base_delay * (2 ** attempt) + uniform(0, 1)`. -/
def retry_llm_call_loop {α : Type} (f : Nat → CallOutcome α) (j : Nat → ℚ)
    (base_delay : ℚ) : Nat → Nat → RetryTrace α
  | 0, _ => ⟨.fellThrough, 0, []⟩
  | fuel + 1, attempt =>
    match f attempt with
    | .ok v => ⟨.value v, 1, []⟩
    | .quota m | .err m =>
      if fuel = 0 then ⟨.raised m, 1, []⟩
      else
        let rest := retry_llm_call_loop f j base_delay fuel (attempt + 1)
        ⟨rest.result, rest.calls + 1, (base_delay * 2 ^ attempt + j attempt) :: rest.sleeps⟩

/-- `ai_core._retry_llm_call(api_call, max_retries=3, base_delay=1.0)`. -/
def retry_llm_call {α : Type} (f : Nat → CallOutcome α) (j : Nat → ℚ)
    (max_retries : Nat) (base_delay : ℚ) : RetryTrace α :=
  retry_llm_call_loop f j base_delay max_retries 0

end AiCore

/-- The value found under the `"queries"` key of the parsed JSON response in
`generate_search_queries_from_email`: either a Python list (whose entries,
per the enforced response schema, are strings) or some non-list value. -/
inductive QueriesVal where
  | pyList (qs : List String)
  | nonList
deriving DecidableEq, Repr

/-- The model response text as seen by `json.loads` in
`generate_search_queries_from_email`: either undecodable JSON
(`json.JSONDecodeError`) or a parsed object whose `"queries"` key is
present with a `QueriesVal` or absent. -/
inductive PlannerResponse where
  | malformed
  | parsed (queriesVal : Option QueriesVal)
deriving DecidableEq, Repr

/-- What reaches the response-processing code of
`generate_search_queries_from_email`: the generation call (through
`_retry_llm_call`) raised, returned `None` (so `response.text` raises
`AttributeError`), or returned a response with the given parse outcome. -/
inductive PlannerCall where
  | raises (msg : String)
  | returnsNone
  | returns (r : PlannerResponse)
deriving DecidableEq, Repr

/-- The inner `try` of `generate_search_queries_from_email`:
`queries = parsed_json.get("queries", [])`, the `isinstance(queries, list)`
check, and `queries[:max_queries]` with `max_queries = 8`;
`json.JSONDecodeError` is caught and yields `[]`. -/
def plannerProcess (r : PlannerResponse) : Except String (List String) :=
  match r with
  | .malformed => .ok []
  | .parsed none => .ok []
  | .parsed (some .nonList) => .ok []
  | .parsed (some (.pyList qs)) => .ok (qs.take 8)

/-- `generate_search_queries_from_email` (identical in `mainfunc.py` and
`ai_core.py`), abstracted over the generation-call outcome.  The result is
`Except`-valued so that a raise escaping to the caller would be visible as
`.error`; the function's outer `except Exception` clause returns `[]`. -/
def generate_search_queries_from_email (c : PlannerCall) : Except String (List String) :=
  let body : Except String (List String) :=
    match c with
    | .raises m => .error m
    | .returnsNone => .error "AttributeError: NoneType object has no attribute text"
    | .returns r => plannerProcess r
  match body with
  | .ok l => .ok l
  | .error _ => .ok []

/-- The triple-quoted `fallback_context` literal of
`mainfunc._create_fallback_context`, before `.strip()`. -/
def fallback_context_raw : String :=
  "\nAlza Customer Support Information (Limited Mode):\n\nBasic Contact Information:\n- Customer Service: +420 225 340 111\n- Email: info@alza.cz\n- Website: www.alza.cz\n\nGeneral Policies:\n- Standard return period: 30 days for online orders\n- Standard warranty: 24 months minimum\n- Customer service available 24/7\n\nNote: Detailed product and policy information temporarily unavailable. \nFor specific questions, please contact customer service directly.\n"

/-- `mainfunc._create_fallback_context(query)`: a hard-coded context string
(the query is only logged). -/
def create_fallback_context (_query : String) : String :=
  pyStrip fallback_context_raw

/-- One iteration of the extraction loop of `_process_rag_response`
(identical in `mainfunc.py` and `ai_core.py`): for the chunk at enumerate
index `i`, the formatted context block and the recorded source identifier,
or `none` when the chunk has no (non-empty) text. -/
def chunkEntry (i : Nat) (c : RagChunk) : Option (String × String) :=
  if c.text = "" then none
  else
    match c.source_uri with
    | some u =>
      if u = "" then
        some ("[SOURCE_" ++ toString i ++ "]\n" ++ pyStrip c.text, "internal_doc_" ++ toString i)
      else
        let filename := if u.toList.contains '/' then (u.splitOn "/").getLastD "" else u
        some ("[SOURCE_" ++ toString i ++ " (" ++ filename ++ ")]\n" ++ pyStrip c.text, filename)
    | none =>
      some ("[SOURCE_" ++ toString i ++ "]\n" ++ pyStrip c.text, "internal_doc_" ++ toString i)

/-- `_process_rag_response` (identical in `mainfunc.py` and `ai_core.py`):
take the top 3 chunks, format each non-empty one with its source marker,
join with `"\n\n---\n\n"`, and return the joined context with the list of
recorded source identifiers. -/
def process_rag_response (raw_contexts : List RagChunk) : String × List String :=
  if raw_contexts = [] then ("", [])
  else
    let entries := (raw_contexts.take 3).enum.filterMap fun p => chunkEntry p.1 p.2
    let context_with_sources := entries.map Prod.fst
    let sources := entries.map Prod.snd
    if context_with_sources = [] then ("", [])
    else (String.intercalate "\n\n---\n\n" context_with_sources, sources)

/-- Trace of one `mainfunc.get_rag_context` run: the returned pair — the
context is `Option String` because `_handle_quota_exhaustion`'s
"continue retrying" signal `(None, [])` is returned to the caller — plus
the number of `rag.retrieval_query` invocations, the issued requests, and
the delays slept. -/
structure RagTrace where
  context : Option String
  sources : List String
  calls : Nat
  requests : List RagRequest
  sleeps : List ℚ
deriving DecidableEq, Repr

/-- `mainfunc._handle_quota_exhaustion(error, attempt, max_retries, query)`:
before the last attempt it sleeps `10 * (2 ** attempt) + uniform(0, 5)`
(jitter input `jq attempt`) and returns `(None, [])`; on the last attempt
it returns the fallback context with no sources.  Result: the returned pair
and the list of delays slept.  The source compares
`attempt < max_retries - 1` over Python ints, which over `Nat` is
`attempt + 1 < max_retries`. -/
def handle_quota_exhaustion (attempt max_retries : Nat) (query : String)
    (jq : Nat → ℚ) : (Option String × List String) × List ℚ :=
  if attempt + 1 < max_retries then ((none, []), [10 * 2 ^ attempt + jq attempt])
  else ((some (create_fallback_context query), []), [])

namespace Mainfunc

/-- The retry loop of `mainfunc.get_rag_context`.  `fuel` is the number of
remaining iterations (`max_retries = attempt + fuel` at each call, so the
argument `attempt + fuel + 1` passed to `handle_quota_exhaustion` is
`max_retries`, and the source's last-attempt test
`attempt == max_retries - 1` is `fuel = 0`).  Every iteration issues one
retrieval request with `top_k = 3` and the LLM-reranking configuration.
`ResourceExhausted` (and quota-flavoured `RuntimeError`) outcomes return
`_handle_quota_exhaustion`'s pair directly; other errors fall through to
the bottom-of-loop sleep `2 ** attempt + uniform(0, 1)` (jitter `js`)
except on the last attempt, which returns the fallback context. -/
def rag_loop (query : String) (oracle : Nat → RagAttempt) (jq js : Nat → ℚ) :
    Nat → Nat → RagTrace
  | 0, _ => ⟨some (create_fallback_context query), [], 0, [], []⟩
  | fuel + 1, attempt =>
    let req : RagRequest := ⟨pyStrip query, 3, true⟩
    match oracle attempt with
    | .ok chunks =>
      let pr := process_rag_response chunks
      ⟨some pr.1, pr.2, 1, [req], []⟩
    | .resourceExhausted _ =>
      let h := handle_quota_exhaustion attempt (attempt + fuel + 1) query jq
      ⟨h.1.1, h.1.2, 1, [req], h.2⟩
    | .runtimeError m =>
      if strContains m "ResourceExhausted" || strContains m "Quota exceeded" then
        let h := handle_quota_exhaustion attempt (attempt + fuel + 1) query jq
        ⟨h.1.1, h.1.2, 1, [req], h.2⟩
      else if fuel = 0 then
        ⟨some (create_fallback_context query), [], 1, [req], []⟩
      else
        let rest := rag_loop query oracle jq js fuel (attempt + 1)
        ⟨rest.context, rest.sources, rest.calls + 1, req :: rest.requests,
          ((2 : ℚ) ^ attempt + js attempt) :: rest.sleeps⟩
    | .exception _ =>
      if fuel = 0 then
        ⟨some (create_fallback_context query), [], 1, [req], []⟩
      else
        let rest := rag_loop query oracle jq js fuel (attempt + 1)
        ⟨rest.context, rest.sources, rest.calls + 1, req :: rest.requests,
          ((2 : ℚ) ^ attempt + js attempt) :: rest.sleeps⟩

/-- `mainfunc.get_rag_context(query, max_length=3000, max_retries)`:
short or empty queries are skipped before any corpus lookup; an
unresolvable corpus yields `("", [])`; otherwise the retry loop runs.
`corpus` is the result of `_get_rag_corpus_name()`. -/
def get_rag_context (query : String) (corpus : Option String)
    (oracle : Nat → RagAttempt) (jq js : Nat → ℚ) (max_retries : Nat) : RagTrace :=
  if query = "" ∨ (pyStrip query).length < 10 then ⟨some "", [], 0, [], []⟩
  else
    match corpus with
    | none => ⟨some "", [], 0, [], []⟩
    | some _ => rag_loop query oracle jq js max_retries 0

end Mainfunc

/-- Decidable equality for `Except`, needed to evaluate concrete
`ai_core.get_rag_context` results. -/
instance {ε α : Type} [DecidableEq ε] [DecidableEq α] : DecidableEq (Except ε α) := fun
  | .error a, .error b =>
    if h : a = b then .isTrue (congrArg Except.error h)
    else .isFalse fun hh => h (Except.error.inj hh)
  | .error _, .ok _ => .isFalse Except.noConfusion
  | .ok _, .error _ => .isFalse Except.noConfusion
  | .ok a, .ok b =>
    if h : a = b then .isTrue (congrArg Except.ok h)
    else .isFalse fun hh => h (Except.ok.inj hh)

/-- Trace of one `ai_core.get_rag_context` run.  The result is
`Except`-valued because a `ResourceExhausted` error whose message lacks the
`"textembedding-gecko"` marker is re-raised to the caller. -/
structure AicoreRagTrace where
  result : Except String (String × List String)
  calls : Nat
  requests : List RagRequest
  sleeps : List ℚ
deriving DecidableEq, Repr

namespace AiCore

/-- The retry loop of `ai_core.get_rag_context` (`fuel` = remaining
iterations, last attempt iff `fuel = 0`).  Each iteration issues one
request with `top_k = 3`; the reranking configuration is attached only when
a ranker model is configured (`if LLM_RANKER else None`).
`ResourceExhausted` with the `"textembedding-gecko"` marker sleeps
`min(15 + attempt * 5, 30)` and retries (also on the last attempt, after
which the loop ends and `("", [])` is returned); other `ResourceExhausted`
errors are re-raised; any other exception retries immediately and yields
`("", [])` on the last attempt. -/
def rag_loop (query : String) (oracle : Nat → RagAttempt) (ranker : Option String) :
    Nat → Nat → AicoreRagTrace
  | 0, _ => ⟨.ok ("", []), 0, [], []⟩
  | fuel + 1, attempt =>
    let req : RagRequest := ⟨pyStrip query, 3, ranker.isSome⟩
    match oracle attempt with
    | .ok chunks => ⟨.ok (process_rag_response chunks), 1, [req], []⟩
    | .resourceExhausted m =>
      if strContains m "textembedding-gecko" then
        let rest := rag_loop query oracle ranker fuel (attempt + 1)
        ⟨rest.result, rest.calls + 1, req :: rest.requests,
          (min (15 + (attempt : ℚ) * 5) 30) :: rest.sleeps⟩
      else ⟨.error m, 1, [req], []⟩
    | .runtimeError _ | .exception _ =>
      if fuel = 0 then ⟨.ok ("", []), 1, [req], []⟩
      else
        let rest := rag_loop query oracle ranker fuel (attempt + 1)
        ⟨rest.result, rest.calls + 1, req :: rest.requests, rest.sleeps⟩

/-- `ai_core.get_rag_context(query, max_length=3000, max_retries)`: no
minimum-length check; an unresolvable corpus yields `("", [])`; otherwise
the retry loop runs. -/
def get_rag_context (query : String) (corpus : Option String)
    (oracle : Nat → RagAttempt) (ranker : Option String) (max_retries : Nat) :
    AicoreRagTrace :=
  match corpus with
  | none => ⟨.ok ("", []), 0, [], []⟩
  | some _ => rag_loop query oracle ranker max_retries 0

end AiCore

/-- One step of `dict.fromkeys` insertion: append the key if unseen. -/
def dedupStep (acc : List String) (x : String) : List String :=
  if x ∈ acc then acc else acc ++ [x]

/-- `list(dict.fromkeys(l))`: deduplicate preserving first-seen order. -/
def dedupFirstSeen (l : List String) : List String :=
  l.foldl dedupStep []

/-- The deduplicated list `unique_contexts` of `process_email_http`
(identical in `mainfunc.py` and `main.py`): the non-falsy contexts of the
per-query results, deduplicated preserving first-seen order.  A `none`
first component is Python `None`; both `None` and `""` fail the
`if context` test. -/
def consolidatedBlocks (rag_results : List (Option String × List String)) : List String :=
  dedupFirstSeen (rag_results.filterMap fun p =>
    p.1.bind fun c => if c = "" then none else some c)

/-- The consolidation step of `process_email_http`: the consolidated
context `"\n\n---\n\n".join(unique_contexts)` and `all_sources`, the
concatenation of every result's source list (not deduplicated). -/
def consolidate (rag_results : List (Option String × List String)) : String × List String :=
  (String.intercalate "\n\n---\n\n" (consolidatedBlocks rag_results),
    (rag_results.map Prod.snd).flatten)

/-- The per-message retrieval block of `process_email_http`:
`[get_rag_context(query) for query in search_queries if query]` followed by
consolidation; `respond` maps a query to the pair returned for it. -/
def runMessageRag (search_queries : List String)
    (respond : String → Option String × List String) : String × List String :=
  consolidate ((search_queries.filter fun q => q != "").map respond)

/-- The `sources_list` f-string of `_add_responsible_ai_disclaimer`: one
`<li>` line per unique source, numbered from 1, joined with `"\n"`. -/
def sourcesListHtml (unique_sources : List String) : String :=
  String.intercalate "\n" (unique_sources.enum.map fun p =>
    "<li style='font-size: 12px; margin: 5px 0;'>[" ++ toString (p.1 + 1) ++ "] " ++ p.2 ++ "</li>")

/-- The `sources_section` of `_add_responsible_ai_disclaimer`: empty when
there are no sources, else the rendered citation block over
`list(dict.fromkeys(sources))`. -/
def sourcesSection (sources : List String) : String :=
  if sources = [] then ""
  else
    "\n<div style=\"margin-top: 25px; padding: 15px; background-color: #f8f9fa; border-radius: 5px;\">\n<p style=\"font-size: 13px; margin: 0 0 10px 0; font-weight: bold; color: #333;\">📚 Zdroje informací:</p>\n<ul style=\"margin: 0; padding-left: 20px;\">\n"
      ++ sourcesListHtml (dedupFirstSeen sources)
      ++ "\n</ul>\n</div>"

/-- The `disclaimer` f-string of `_add_responsible_ai_disclaimer`
(identical text in `mainfunc.py` and `main.py`); it ends in `"</div>"`. -/
def disclaimerBlock (sources : List String) : String :=
  sourcesSection sources
    ++ "\n\n<hr style=\"margin: 20px 0; border: none; border-top: 1px solid #e0e0e0;\">\n<p style=\"font-size: 11px; color: #666; text-align: center; line-height: 1.4;\">\n<em>🤖 Tato odpověď byla vygenerována umělou inteligencí. AI modely mohou dělat chyby, proto prosím ověřte si důležité informace přímo s našimi experty.<br>\nGoogle AI models may make mistakes, so double-check outputs.</em>\n</p>\n</div>"

/-- `_add_responsible_ai_disclaimer(html_content, sources)` (identical in
`mainfunc.py` and `main.py`): right-strip the body, drop a trailing
`"</div>"` (six characters) if present, then append the sources section
and disclaimer. -/
def add_responsible_ai_disclaimer (html_content : String) (sources : List String) : String :=
  let stripped := pyRstrip html_content
  let body : String :=
    if "</div>".data.isSuffixOf stripped.data then ⟨stripped.data.take (stripped.data.length - 6)⟩
    else stripped
  body ++ disclaimerBlock sources

/-! ### Helper lemmas -/

theorem foldl_dedupStep_mem (l : List String) :
    ∀ (acc : List String) (x : String), x ∈ l.foldl dedupStep acc ↔ x ∈ acc ∨ x ∈ l := by
  induction l with
  | nil => simp
  | cons y t ih =>
    intro acc x
    rw [List.foldl_cons, ih]
    unfold dedupStep
    split
    · next h =>
      simp only [List.mem_cons]
      constructor
      · rintro (hx | hx)
        · exact Or.inl hx
        · exact Or.inr (Or.inr hx)
      · rintro (hx | hx | hx)
        · exact Or.inl hx
        · exact Or.inl (hx ▸ h)
        · exact Or.inr hx
    · simp only [List.mem_append, List.mem_singleton, List.mem_cons]
      tauto

theorem foldl_dedupStep_nodup (l : List String) :
    ∀ acc : List String, acc.Nodup → (l.foldl dedupStep acc).Nodup := by
  induction l with
  | nil => exact fun _ h => h
  | cons y t ih =>
    intro acc h
    rw [List.foldl_cons]
    apply ih
    unfold dedupStep
    split
    · exact h
    · next hy =>
      rw [List.nodup_append]
      exact ⟨h, List.nodup_singleton y, by simpa using hy⟩

theorem dedupFirstSeen_nodup (l : List String) : (dedupFirstSeen l).Nodup :=
  foldl_dedupStep_nodup l [] (by simp)

theorem mem_dedupFirstSeen (l : List String) (x : String) :
    x ∈ dedupFirstSeen l ↔ x ∈ l := by
  unfold dedupFirstSeen
  rw [foldl_dedupStep_mem]
  simp

theorem count_dedupFirstSeen (l : List String) (x : String) (h : x ∈ l) :
    (dedupFirstSeen l).count x = 1 := by
  have h1 : (dedupFirstSeen l).count x ≤ 1 :=
    List.nodup_iff_count_le_one.mp (dedupFirstSeen_nodup l) x
  have h2 : 0 < (dedupFirstSeen l).count x :=
    List.count_pos_iff.mpr ((mem_dedupFirstSeen l x).mpr h)
  omega

theorem consolidatedBlocks_mem (rs : List (Option String × List String)) (c : String)
    (h : c ∈ consolidatedBlocks rs) : ∃ p, p ∈ rs ∧ p.1 = some c := by
  unfold consolidatedBlocks at h
  rw [mem_dedupFirstSeen, List.mem_filterMap] at h
  obtain ⟨p, hp, he⟩ := h
  refine ⟨p, hp, ?_⟩
  cases hp1 : p.1 with
  | none => rw [hp1] at he; simp at he
  | some c' =>
    rw [hp1] at he
    rw [Option.some_bind] at he
    split at he
    · exact absurd he (by simp)
    · exact he
theorem mainfunc_retry_loop_err_all {α : Type} (f : Nat → CallOutcome α) (e : Nat → String)
    (jq jo : Nat → ℚ) (bd : ℚ) (hf : ∀ a, f a = CallOutcome.err (e a)) :
    ∀ fuel attempt,
      (Mainfunc.retry_llm_call_loop f jq jo bd (fuel + 1) attempt).result
          = RetryResult.raised (e (attempt + fuel)) ∧
      (Mainfunc.retry_llm_call_loop f jq jo bd (fuel + 1) attempt).calls = fuel + 1 := by
  intro fuel
  induction fuel with
  | zero =>
    intro attempt
    have hstep : Mainfunc.retry_llm_call_loop f jq jo bd 1 attempt
        = ⟨.raised (e attempt), 1, []⟩ := by
      unfold Mainfunc.retry_llm_call_loop
      rw [hf attempt]
      rfl
    rw [hstep]
    exact ⟨rfl, rfl⟩
  | succ n ih =>
    intro attempt
    have hstep : Mainfunc.retry_llm_call_loop f jq jo bd (n + 1 + 1) attempt
        = ⟨(Mainfunc.retry_llm_call_loop f jq jo bd (n + 1) (attempt + 1)).result,
           (Mainfunc.retry_llm_call_loop f jq jo bd (n + 1) (attempt + 1)).calls + 1,
           (bd * 2 ^ attempt + jo attempt)
             :: (Mainfunc.retry_llm_call_loop f jq jo bd (n + 1) (attempt + 1)).sleeps⟩ := by
      unfold Mainfunc.retry_llm_call_loop
      rw [hf attempt]
      rfl
    obtain ⟨h1, h2⟩ := ih (attempt + 1)
    have hx : attempt + 1 + n = attempt + (n + 1) := by omega
    rw [hstep]
    constructor
    · show (Mainfunc.retry_llm_call_loop f jq jo bd (n + 1) (attempt + 1)).result = _
      rw [h1, hx]
    · show (Mainfunc.retry_llm_call_loop f jq jo bd (n + 1) (attempt + 1)).calls + 1 = _
      rw [h2]

theorem aicore_retry_loop_err_all {α : Type} (f : Nat → CallOutcome α) (e : Nat → String)
    (j : Nat → ℚ) (bd : ℚ) (hf : ∀ a, f a = CallOutcome.err (e a)) :
    ∀ fuel attempt,
      (AiCore.retry_llm_call_loop f j bd (fuel + 1) attempt).result
          = RetryResult.raised (e (attempt + fuel)) ∧
      (AiCore.retry_llm_call_loop f j bd (fuel + 1) attempt).calls = fuel + 1 := by
  intro fuel
  induction fuel with
  | zero =>
    intro attempt
    have hstep : AiCore.retry_llm_call_loop f j bd 1 attempt
        = ⟨.raised (e attempt), 1, []⟩ := by
      unfold AiCore.retry_llm_call_loop
      rw [hf attempt]
      rfl
    rw [hstep]
    exact ⟨rfl, rfl⟩
  | succ n ih =>
    intro attempt
    have hstep : AiCore.retry_llm_call_loop f j bd (n + 1 + 1) attempt
        = ⟨(AiCore.retry_llm_call_loop f j bd (n + 1) (attempt + 1)).result,
           (AiCore.retry_llm_call_loop f j bd (n + 1) (attempt + 1)).calls + 1,
           (bd * 2 ^ attempt + j attempt)
             :: (AiCore.retry_llm_call_loop f j bd (n + 1) (attempt + 1)).sleeps⟩ := by
      unfold AiCore.retry_llm_call_loop
      rw [hf attempt]
      rfl
    obtain ⟨h1, h2⟩ := ih (attempt + 1)
    have hx : attempt + 1 + n = attempt + (n + 1) := by omega
    rw [hstep]
    constructor
    · show (AiCore.retry_llm_call_loop f j bd (n + 1) (attempt + 1)).result = _
      rw [h1, hx]
    · show (AiCore.retry_llm_call_loop f j bd (n + 1) (attempt + 1)).calls + 1 = _
      rw [h2]
theorem mainfunc_rag_loop_exception_all (q : String) (oracle : Nat → RagAttempt)
    (jq js : Nat → ℚ) (e : Nat → String) (hf : ∀ a, oracle a = RagAttempt.exception (e a)) :
    ∀ fuel attempt,
      (Mainfunc.rag_loop q oracle jq js fuel attempt).context = some (create_fallback_context q) ∧
      (Mainfunc.rag_loop q oracle jq js fuel attempt).sources = [] := by
  intro fuel
  induction fuel with
  | zero => exact fun _ => ⟨rfl, rfl⟩
  | succ n ih =>
    intro attempt
    unfold Mainfunc.rag_loop
    simp only [hf]
    split
    · exact ⟨rfl, rfl⟩
    · exact ih (attempt + 1)

theorem aicore_rag_loop_exception_all (q : String) (oracle : Nat → RagAttempt)
    (ranker : Option String) (e : Nat → String)
    (hf : ∀ a, oracle a = RagAttempt.exception (e a)) :
    ∀ fuel attempt,
      (AiCore.rag_loop q oracle ranker fuel attempt).result = Except.ok ("", []) := by
  intro fuel
  induction fuel with
  | zero => exact fun _ => rfl
  | succ n ih =>
    intro attempt
    unfold AiCore.rag_loop
    simp only [hf]
    split
    · rfl
    · exact ih (attempt + 1)

theorem aicore_rag_loop_gecko_all (q : String) (oracle : Nat → RagAttempt)
    (ranker : Option String) (m : Nat → String)
    (hf : ∀ a, oracle a = RagAttempt.resourceExhausted (m a) ∧
      strContains (m a) "textembedding-gecko" = true) :
    ∀ fuel attempt,
      (AiCore.rag_loop q oracle ranker fuel attempt).result = Except.ok ("", []) := by
  intro fuel
  induction fuel with
  | zero => exact fun _ => rfl
  | succ n ih =>
    intro attempt
    unfold AiCore.rag_loop
    simp only [(hf attempt).1, (hf attempt).2]
    exact ih (attempt + 1)
theorem mainfunc_rag_loop_requests (q : String) (oracle : Nat → RagAttempt)
    (jq js : Nat → ℚ) :
    ∀ fuel attempt r, r ∈ (Mainfunc.rag_loop q oracle jq js fuel attempt).requests →
      r = ⟨pyStrip q, 3, true⟩ := by
  intro fuel
  induction fuel with
  | zero => intro attempt r h; simp [Mainfunc.rag_loop] at h
  | succ n ih =>
    intro attempt r h
    unfold Mainfunc.rag_loop at h
    cases ho : oracle attempt <;> rw [ho] at h
    case ok chunks =>
      have h2 : r ∈ [(⟨pyStrip q, 3, true⟩ : RagRequest)] := h
      simpa using h2
    case resourceExhausted m =>
      have h2 : r ∈ [(⟨pyStrip q, 3, true⟩ : RagRequest)] := h
      simpa using h2
    case runtimeError m =>
      have h2 : r ∈ (if strContains m "ResourceExhausted" || strContains m "Quota exceeded" then
          (⟨(handle_quota_exhaustion attempt (attempt + n + 1) q jq).1.1,
            (handle_quota_exhaustion attempt (attempt + n + 1) q jq).1.2, 1,
            [⟨pyStrip q, 3, true⟩], (handle_quota_exhaustion attempt (attempt + n + 1) q jq).2⟩ : RagTrace)
        else if n = 0 then ⟨some (create_fallback_context q), [], 1, [⟨pyStrip q, 3, true⟩], []⟩
        else ⟨(Mainfunc.rag_loop q oracle jq js n (attempt + 1)).context,
              (Mainfunc.rag_loop q oracle jq js n (attempt + 1)).sources,
              (Mainfunc.rag_loop q oracle jq js n (attempt + 1)).calls + 1,
              ⟨pyStrip q, 3, true⟩ :: (Mainfunc.rag_loop q oracle jq js n (attempt + 1)).requests,
              ((2 : ℚ) ^ attempt + js attempt) :: (Mainfunc.rag_loop q oracle jq js n (attempt + 1)).sleeps⟩).requests := h
      split at h2
      · have h3 : r ∈ [(⟨pyStrip q, 3, true⟩ : RagRequest)] := h2
        simpa using h3
      · split at h2
        · have h3 : r ∈ [(⟨pyStrip q, 3, true⟩ : RagRequest)] := h2
          simpa using h3
        · have h3 : r ∈ (⟨pyStrip q, 3, true⟩ : RagRequest)
              :: (Mainfunc.rag_loop q oracle jq js n (attempt + 1)).requests := h2
          rcases List.mem_cons.mp h3 with h4 | h4
          · exact h4
          · exact ih (attempt + 1) r h4
    case exception m =>
      have h2 : r ∈ (if n = 0 then
          (⟨some (create_fallback_context q), [], 1, [⟨pyStrip q, 3, true⟩], []⟩ : RagTrace)
        else ⟨(Mainfunc.rag_loop q oracle jq js n (attempt + 1)).context,
              (Mainfunc.rag_loop q oracle jq js n (attempt + 1)).sources,
              (Mainfunc.rag_loop q oracle jq js n (attempt + 1)).calls + 1,
              ⟨pyStrip q, 3, true⟩ :: (Mainfunc.rag_loop q oracle jq js n (attempt + 1)).requests,
              ((2 : ℚ) ^ attempt + js attempt) :: (Mainfunc.rag_loop q oracle jq js n (attempt + 1)).sleeps⟩).requests := h
      split at h2
      · have h3 : r ∈ [(⟨pyStrip q, 3, true⟩ : RagRequest)] := h2
        simpa using h3
      · have h3 : r ∈ (⟨pyStrip q, 3, true⟩ : RagRequest)
            :: (Mainfunc.rag_loop q oracle jq js n (attempt + 1)).requests := h2
        rcases List.mem_cons.mp h3 with h4 | h4
        · exact h4
        · exact ih (attempt + 1) r h4

theorem aicore_rag_loop_requests (q : String) (oracle : Nat → RagAttempt)
    (ranker : Option String) :
    ∀ fuel attempt r, r ∈ (AiCore.rag_loop q oracle ranker fuel attempt).requests →
      r = ⟨pyStrip q, 3, ranker.isSome⟩ := by
  intro fuel
  induction fuel with
  | zero => intro attempt r h; simp [AiCore.rag_loop] at h
  | succ n ih =>
    intro attempt r h
    unfold AiCore.rag_loop at h
    cases ho : oracle attempt <;> rw [ho] at h
    case ok chunks =>
      have h2 : r ∈ [(⟨pyStrip q, 3, ranker.isSome⟩ : RagRequest)] := h
      simpa using h2
    case resourceExhausted m =>
      have h2 : r ∈ (if strContains m "textembedding-gecko" then
          (⟨(AiCore.rag_loop q oracle ranker n (attempt + 1)).result,
            (AiCore.rag_loop q oracle ranker n (attempt + 1)).calls + 1,
            ⟨pyStrip q, 3, ranker.isSome⟩ :: (AiCore.rag_loop q oracle ranker n (attempt + 1)).requests,
            (min (15 + (attempt : ℚ) * 5) 30) :: (AiCore.rag_loop q oracle ranker n (attempt + 1)).sleeps⟩ : AicoreRagTrace)
        else ⟨Except.error m, 1, [⟨pyStrip q, 3, ranker.isSome⟩], []⟩).requests := h
      split at h2
      · have h3 : r ∈ (⟨pyStrip q, 3, ranker.isSome⟩ : RagRequest)
            :: (AiCore.rag_loop q oracle ranker n (attempt + 1)).requests := h2
        rcases List.mem_cons.mp h3 with h4 | h4
        · exact h4
        · exact ih (attempt + 1) r h4
      · have h3 : r ∈ [(⟨pyStrip q, 3, ranker.isSome⟩ : RagRequest)] := h2
        simpa using h3
    case runtimeError m =>
      have h2 : r ∈ (if n = 0 then (⟨Except.ok ("", []), 1, [⟨pyStrip q, 3, ranker.isSome⟩], []⟩ : AicoreRagTrace)
        else ⟨(AiCore.rag_loop q oracle ranker n (attempt + 1)).result,
              (AiCore.rag_loop q oracle ranker n (attempt + 1)).calls + 1,
              ⟨pyStrip q, 3, ranker.isSome⟩ :: (AiCore.rag_loop q oracle ranker n (attempt + 1)).requests,
              (AiCore.rag_loop q oracle ranker n (attempt + 1)).sleeps⟩).requests := h
      split at h2
      · have h3 : r ∈ [(⟨pyStrip q, 3, ranker.isSome⟩ : RagRequest)] := h2
        simpa using h3
      · have h3 : r ∈ (⟨pyStrip q, 3, ranker.isSome⟩ : RagRequest)
            :: (AiCore.rag_loop q oracle ranker n (attempt + 1)).requests := h2
        rcases List.mem_cons.mp h3 with h4 | h4
        · exact h4
        · exact ih (attempt + 1) r h4
    case exception m =>
      have h2 : r ∈ (if n = 0 then (⟨Except.ok ("", []), 1, [⟨pyStrip q, 3, ranker.isSome⟩], []⟩ : AicoreRagTrace)
        else ⟨(AiCore.rag_loop q oracle ranker n (attempt + 1)).result,
              (AiCore.rag_loop q oracle ranker n (attempt + 1)).calls + 1,
              ⟨pyStrip q, 3, ranker.isSome⟩ :: (AiCore.rag_loop q oracle ranker n (attempt + 1)).requests,
              (AiCore.rag_loop q oracle ranker n (attempt + 1)).sleeps⟩).requests := h
      split at h2
      · have h3 : r ∈ [(⟨pyStrip q, 3, ranker.isSome⟩ : RagRequest)] := h2
        simpa using h3
      · have h3 : r ∈ (⟨pyStrip q, 3, ranker.isSome⟩ : RagRequest)
            :: (AiCore.rag_loop q oracle ranker n (attempt + 1)).requests := h2
        rcases List.mem_cons.mp h3 with h4 | h4
        · exact h4
        · exact ih (attempt + 1) r h4

theorem process_rag_response_take3 (chunks : List RagChunk) :
    process_rag_response chunks = process_rag_response (chunks.take 3) := by
  unfold process_rag_response
  rw [List.take_take, min_self]
  simp only [List.take_eq_nil_iff]
  norm_num
theorem mainfunc_rag_loop_succ (q : String) (oracle : Nat → RagAttempt)
    (jq js : Nat → ℚ) (n attempt : Nat) :
    Mainfunc.rag_loop q oracle jq js (n + 1) attempt =
      (match oracle attempt with
       | .ok chunks =>
         ⟨some (process_rag_response chunks).1, (process_rag_response chunks).2, 1,
          [⟨pyStrip q, 3, true⟩], []⟩
       | .resourceExhausted _ =>
         ⟨(handle_quota_exhaustion attempt (attempt + n + 1) q jq).1.1,
          (handle_quota_exhaustion attempt (attempt + n + 1) q jq).1.2, 1,
          [⟨pyStrip q, 3, true⟩], (handle_quota_exhaustion attempt (attempt + n + 1) q jq).2⟩
       | .runtimeError m =>
         if strContains m "ResourceExhausted" || strContains m "Quota exceeded" then
           ⟨(handle_quota_exhaustion attempt (attempt + n + 1) q jq).1.1,
            (handle_quota_exhaustion attempt (attempt + n + 1) q jq).1.2, 1,
            [⟨pyStrip q, 3, true⟩], (handle_quota_exhaustion attempt (attempt + n + 1) q jq).2⟩
         else if n = 0 then
           ⟨some (create_fallback_context q), [], 1, [⟨pyStrip q, 3, true⟩], []⟩
         else
           ⟨(Mainfunc.rag_loop q oracle jq js n (attempt + 1)).context,
            (Mainfunc.rag_loop q oracle jq js n (attempt + 1)).sources,
            (Mainfunc.rag_loop q oracle jq js n (attempt + 1)).calls + 1,
            ⟨pyStrip q, 3, true⟩ :: (Mainfunc.rag_loop q oracle jq js n (attempt + 1)).requests,
            ((2 : ℚ) ^ attempt + js attempt)
              :: (Mainfunc.rag_loop q oracle jq js n (attempt + 1)).sleeps⟩
       | .exception _ =>
         if n = 0 then
           ⟨some (create_fallback_context q), [], 1, [⟨pyStrip q, 3, true⟩], []⟩
         else
           ⟨(Mainfunc.rag_loop q oracle jq js n (attempt + 1)).context,
            (Mainfunc.rag_loop q oracle jq js n (attempt + 1)).sources,
            (Mainfunc.rag_loop q oracle jq js n (attempt + 1)).calls + 1,
            ⟨pyStrip q, 3, true⟩ :: (Mainfunc.rag_loop q oracle jq js n (attempt + 1)).requests,
            ((2 : ℚ) ^ attempt + js attempt)
              :: (Mainfunc.rag_loop q oracle jq js n (attempt + 1)).sleeps⟩) := rfl


theorem aicore_rag_loop_succ (q : String) (oracle : Nat → RagAttempt)
    (ranker : Option String) (n attempt : Nat) :
    AiCore.rag_loop q oracle ranker (n + 1) attempt =
      (match oracle attempt with
       | .ok chunks =>
         ⟨Except.ok (process_rag_response chunks), 1, [⟨pyStrip q, 3, ranker.isSome⟩], []⟩
       | .resourceExhausted m =>
         if strContains m "textembedding-gecko" then
           ⟨(AiCore.rag_loop q oracle ranker n (attempt + 1)).result,
            (AiCore.rag_loop q oracle ranker n (attempt + 1)).calls + 1,
            ⟨pyStrip q, 3, ranker.isSome⟩ :: (AiCore.rag_loop q oracle ranker n (attempt + 1)).requests,
            (min (15 + (attempt : ℚ) * 5) 30)
              :: (AiCore.rag_loop q oracle ranker n (attempt + 1)).sleeps⟩
         else ⟨Except.error m, 1, [⟨pyStrip q, 3, ranker.isSome⟩], []⟩
       | .runtimeError _ =>
         if n = 0 then ⟨Except.ok ("", []), 1, [⟨pyStrip q, 3, ranker.isSome⟩], []⟩
         else
           ⟨(AiCore.rag_loop q oracle ranker n (attempt + 1)).result,
            (AiCore.rag_loop q oracle ranker n (attempt + 1)).calls + 1,
            ⟨pyStrip q, 3, ranker.isSome⟩ :: (AiCore.rag_loop q oracle ranker n (attempt + 1)).requests,
            (AiCore.rag_loop q oracle ranker n (attempt + 1)).sleeps⟩
       | .exception _ =>
         if n = 0 then ⟨Except.ok ("", []), 1, [⟨pyStrip q, 3, ranker.isSome⟩], []⟩
         else
           ⟨(AiCore.rag_loop q oracle ranker n (attempt + 1)).result,
            (AiCore.rag_loop q oracle ranker n (attempt + 1)).calls + 1,
            ⟨pyStrip q, 3, ranker.isSome⟩ :: (AiCore.rag_loop q oracle ranker n (attempt + 1)).requests,
            (AiCore.rag_loop q oracle ranker n (attempt + 1)).sleeps⟩) := rfl
theorem mainfunc_rag_loop_context_trace (q : String) (oracle : Nat → RagAttempt)
    (jq js : Nat → ℚ) :
    ∀ fuel attempt ctx,
      (Mainfunc.rag_loop q oracle jq js fuel attempt).context = some ctx →
      ctx = create_fallback_context q ∨
      ∃ a chunks, oracle a = RagAttempt.ok chunks ∧ ctx = (process_rag_response chunks).1 := by
  intro fuel
  induction fuel with
  | zero =>
    intro attempt ctx h
    left
    have h2 : some (create_fallback_context q) = some ctx := h
    exact (Option.some_inj.mp h2).symm
  | succ n ih =>
    intro attempt ctx h
    rw [mainfunc_rag_loop_succ] at h
    cases ho : oracle attempt
    case ok chunks =>
      rw [ho] at h
      have h2 : some (process_rag_response chunks).1 = some ctx := h
      right
      exact ⟨attempt, chunks, ho, (Option.some_inj.mp h2).symm⟩
    case resourceExhausted m =>
      rw [ho] at h
      have h2 : (handle_quota_exhaustion attempt (attempt + n + 1) q jq).1.1 = some ctx := h
      by_cases hlt : attempt + 1 < attempt + n + 1
      · have hq : handle_quota_exhaustion attempt (attempt + n + 1) q jq
            = ((none, []), [10 * 2 ^ attempt + jq attempt]) := by
          unfold handle_quota_exhaustion
          rw [if_pos hlt]
        rw [hq] at h2
        exact absurd h2 (by simp)
      · have hq : handle_quota_exhaustion attempt (attempt + n + 1) q jq
            = ((some (create_fallback_context q), []), []) := by
          unfold handle_quota_exhaustion
          rw [if_neg hlt]
        rw [hq] at h2
        left
        have h3 : some (create_fallback_context q) = some ctx := h2
        exact (Option.some_inj.mp h3).symm
    case runtimeError m =>
      rw [ho] at h
      have h2 : (if strContains m "ResourceExhausted" || strContains m "Quota exceeded" then
          (⟨(handle_quota_exhaustion attempt (attempt + n + 1) q jq).1.1,
            (handle_quota_exhaustion attempt (attempt + n + 1) q jq).1.2, 1,
            [⟨pyStrip q, 3, true⟩], (handle_quota_exhaustion attempt (attempt + n + 1) q jq).2⟩ : RagTrace)
        else if n = 0 then
          ⟨some (create_fallback_context q), [], 1, [⟨pyStrip q, 3, true⟩], []⟩
        else
          ⟨(Mainfunc.rag_loop q oracle jq js n (attempt + 1)).context,
           (Mainfunc.rag_loop q oracle jq js n (attempt + 1)).sources,
           (Mainfunc.rag_loop q oracle jq js n (attempt + 1)).calls + 1,
           ⟨pyStrip q, 3, true⟩ :: (Mainfunc.rag_loop q oracle jq js n (attempt + 1)).requests,
           ((2 : ℚ) ^ attempt + js attempt)
             :: (Mainfunc.rag_loop q oracle jq js n (attempt + 1)).sleeps⟩).context = some ctx := h
      by_cases hc : (strContains m "ResourceExhausted" || strContains m "Quota exceeded") = true
      · rw [if_pos hc] at h2
        have h3 : (handle_quota_exhaustion attempt (attempt + n + 1) q jq).1.1 = some ctx := h2
        by_cases hlt : attempt + 1 < attempt + n + 1
        · have hq : handle_quota_exhaustion attempt (attempt + n + 1) q jq
              = ((none, []), [10 * 2 ^ attempt + jq attempt]) := by
            unfold handle_quota_exhaustion
            rw [if_pos hlt]
          rw [hq] at h3
          exact absurd h3 (by simp)
        · have hq : handle_quota_exhaustion attempt (attempt + n + 1) q jq
              = ((some (create_fallback_context q), []), []) := by
            unfold handle_quota_exhaustion
            rw [if_neg hlt]
          rw [hq] at h3
          left
          have h4 : some (create_fallback_context q) = some ctx := h3
          exact (Option.some_inj.mp h4).symm
      · rw [if_neg hc] at h2
        by_cases hn : n = 0
        · rw [if_pos hn] at h2
          left
          have h3 : some (create_fallback_context q) = some ctx := h2
          exact (Option.some_inj.mp h3).symm
        · rw [if_neg hn] at h2
          have h3 : (Mainfunc.rag_loop q oracle jq js n (attempt + 1)).context = some ctx := h2
          exact ih (attempt + 1) ctx h3
    case exception m =>
      rw [ho] at h
      have h2 : (if n = 0 then
          (⟨some (create_fallback_context q), [], 1, [⟨pyStrip q, 3, true⟩], []⟩ : RagTrace)
        else
          ⟨(Mainfunc.rag_loop q oracle jq js n (attempt + 1)).context,
           (Mainfunc.rag_loop q oracle jq js n (attempt + 1)).sources,
           (Mainfunc.rag_loop q oracle jq js n (attempt + 1)).calls + 1,
           ⟨pyStrip q, 3, true⟩ :: (Mainfunc.rag_loop q oracle jq js n (attempt + 1)).requests,
           ((2 : ℚ) ^ attempt + js attempt)
             :: (Mainfunc.rag_loop q oracle jq js n (attempt + 1)).sleeps⟩).context = some ctx := h
      by_cases hn : n = 0
      · rw [if_pos hn] at h2
        left
        have h3 : some (create_fallback_context q) = some ctx := h2
        exact (Option.some_inj.mp h3).symm
      · rw [if_neg hn] at h2
        have h3 : (Mainfunc.rag_loop q oracle jq js n (attempt + 1)).context = some ctx := h2
        exact ih (attempt + 1) ctx h3

theorem aicore_rag_loop_result_trace (q : String) (oracle : Nat → RagAttempt)
    (ranker : Option String) :
    ∀ fuel attempt p,
      (AiCore.rag_loop q oracle ranker fuel attempt).result = Except.ok p →
      p = ("", []) ∨ ∃ a chunks, oracle a = RagAttempt.ok chunks ∧ p = process_rag_response chunks := by
  intro fuel
  induction fuel with
  | zero =>
    intro attempt p h
    left
    have h2 : Except.ok (("" : String), ([] : List String)) = Except.ok p := h
    exact (Except.ok.inj h2).symm
  | succ n ih =>
    intro attempt p h
    rw [aicore_rag_loop_succ] at h
    cases ho : oracle attempt
    case ok chunks =>
      rw [ho] at h
      have h2 : Except.ok (process_rag_response chunks) = Except.ok p := h
      right
      exact ⟨attempt, chunks, ho, (Except.ok.inj h2).symm⟩
    case resourceExhausted m =>
      rw [ho] at h
      have h2 : (if strContains m "textembedding-gecko" then
          (⟨(AiCore.rag_loop q oracle ranker n (attempt + 1)).result,
            (AiCore.rag_loop q oracle ranker n (attempt + 1)).calls + 1,
            ⟨pyStrip q, 3, ranker.isSome⟩ :: (AiCore.rag_loop q oracle ranker n (attempt + 1)).requests,
            (min (15 + (attempt : ℚ) * 5) 30)
              :: (AiCore.rag_loop q oracle ranker n (attempt + 1)).sleeps⟩ : AicoreRagTrace)
        else ⟨Except.error m, 1, [⟨pyStrip q, 3, ranker.isSome⟩], []⟩).result = Except.ok p := h
      by_cases hg : strContains m "textembedding-gecko" = true
      · rw [if_pos hg] at h2
        have h3 : (AiCore.rag_loop q oracle ranker n (attempt + 1)).result = Except.ok p := h2
        exact ih (attempt + 1) p h3
      · rw [if_neg hg] at h2
        have h3 : Except.error (α := String × List String) m = Except.ok p := h2
        exact absurd h3 (by simp)
    case runtimeError m =>
      rw [ho] at h
      have h2 : (if n = 0 then
          (⟨Except.ok ("", []), 1, [⟨pyStrip q, 3, ranker.isSome⟩], []⟩ : AicoreRagTrace)
        else ⟨(AiCore.rag_loop q oracle ranker n (attempt + 1)).result,
              (AiCore.rag_loop q oracle ranker n (attempt + 1)).calls + 1,
              ⟨pyStrip q, 3, ranker.isSome⟩ :: (AiCore.rag_loop q oracle ranker n (attempt + 1)).requests,
              (AiCore.rag_loop q oracle ranker n (attempt + 1)).sleeps⟩).result = Except.ok p := h
      by_cases hn : n = 0
      · rw [if_pos hn] at h2
        left
        have h3 : Except.ok (("" : String), ([] : List String)) = Except.ok p := h2
        exact (Except.ok.inj h3).symm
      · rw [if_neg hn] at h2
        have h3 : (AiCore.rag_loop q oracle ranker n (attempt + 1)).result = Except.ok p := h2
        exact ih (attempt + 1) p h3
    case exception m =>
      rw [ho] at h
      have h2 : (if n = 0 then
          (⟨Except.ok ("", []), 1, [⟨pyStrip q, 3, ranker.isSome⟩], []⟩ : AicoreRagTrace)
        else ⟨(AiCore.rag_loop q oracle ranker n (attempt + 1)).result,
              (AiCore.rag_loop q oracle ranker n (attempt + 1)).calls + 1,
              ⟨pyStrip q, 3, ranker.isSome⟩ :: (AiCore.rag_loop q oracle ranker n (attempt + 1)).requests,
              (AiCore.rag_loop q oracle ranker n (attempt + 1)).sleeps⟩).result = Except.ok p := h
      by_cases hn : n = 0
      · rw [if_pos hn] at h2
        left
        have h3 : Except.ok (("" : String), ([] : List String)) = Except.ok p := h2
        exact (Except.ok.inj h3).symm
      · rw [if_neg hn] at h2
        have h3 : (AiCore.rag_loop q oracle ranker n (attempt + 1)).result = Except.ok p := h2
        exact ih (attempt + 1) p h3

/-! ### Claim theorems -/

/-- C6: the query planner returns at most 8 search queries; whenever the
parsed `queries` array is a list, the result is its first 8 entries in
order (`queries[:8]`), so a longer list is truncated. -/
theorem c6_planner_truncates_to_eight :
    ∀ (c : PlannerCall) (l : List String),
      generate_search_queries_from_email c = Except.ok l →
      l.length ≤ 8 ∧
      ∀ qs : List String,
        c = PlannerCall.returns (PlannerResponse.parsed (some (QueriesVal.pyList qs))) →
        l = qs.take 8 := by
  intro c l h
  cases c with
  | raises m =>
    have h2 : Except.ok ([] : List String) = Except.ok l := h
    have h3 : ([] : List String) = l := Except.ok.inj h2
    subst h3
    exact ⟨by simp, fun qs hq => by cases hq⟩
  | returnsNone =>
    have h2 : Except.ok ([] : List String) = Except.ok l := h
    have h3 : ([] : List String) = l := Except.ok.inj h2
    subst h3
    exact ⟨by simp, fun qs hq => by cases hq⟩
  | returns r =>
    cases r with
    | malformed =>
      have h2 : Except.ok ([] : List String) = Except.ok l := h
      have h3 : ([] : List String) = l := Except.ok.inj h2
      subst h3
      exact ⟨by simp, fun qs hq => by simp at hq⟩
    | parsed o =>
      cases o with
      | none =>
        have h2 : Except.ok ([] : List String) = Except.ok l := h
        have h3 : ([] : List String) = l := Except.ok.inj h2
        subst h3
        exact ⟨by simp, fun qs hq => by simp at hq⟩
      | some qv =>
        cases qv with
        | nonList =>
          have h2 : Except.ok ([] : List String) = Except.ok l := h
          have h3 : ([] : List String) = l := Except.ok.inj h2
          subst h3
          exact ⟨by simp, fun qs hq => by simp at hq⟩
        | pyList qs0 =>
          have h2 : Except.ok (qs0.take 8) = Except.ok l := h
          have h3 : qs0.take 8 = l := Except.ok.inj h2
          subst h3
          refine ⟨by simp [List.length_take], fun qs hq => ?_⟩
          have h4 : qs0 = qs := by simpa using hq
          rw [h4]

/-- C6 witness: a parsed response with nine queries is truncated to the
first eight. -/
theorem c6_witness :
    (["a1", "a2", "a3", "a4", "a5", "a6", "a7", "a8", "a9"].take 8).length ≤ 8 ∧
    ∀ qs : List String,
      PlannerCall.returns (PlannerResponse.parsed (some
          (QueriesVal.pyList ["a1", "a2", "a3", "a4", "a5", "a6", "a7", "a8", "a9"])))
        = PlannerCall.returns (PlannerResponse.parsed (some (QueriesVal.pyList qs))) →
      ["a1", "a2", "a3", "a4", "a5", "a6", "a7", "a8", "a9"].take 8 = qs.take 8 :=
  c6_planner_truncates_to_eight
    (PlannerCall.returns (PlannerResponse.parsed (some
      (QueriesVal.pyList ["a1", "a2", "a3", "a4", "a5", "a6", "a7", "a8", "a9"]))))
    (["a1", "a2", "a3", "a4", "a5", "a6", "a7", "a8", "a9"].take 8) rfl

/-- C7: a wrapped call that fails with a non-quota error on every
invocation is invoked exactly `max_retries` times by both retry helpers,
which then re-raise the final error instead of returning a value. -/
theorem c7_retry_exhaustion_raises {α : Type} (f : Nat → CallOutcome α) (e : Nat → String)
    (jq jo j : Nat → ℚ) (bd bd' : ℚ) (max_retries : Nat)
    (hmr : 1 ≤ max_retries) (hf : ∀ a, f a = CallOutcome.err (e a)) :
    (Mainfunc.retry_llm_call f jq jo max_retries bd).result
        = RetryResult.raised (e (max_retries - 1)) ∧
    (Mainfunc.retry_llm_call f jq jo max_retries bd).calls = max_retries ∧
    (AiCore.retry_llm_call f j max_retries bd').result
        = RetryResult.raised (e (max_retries - 1)) ∧
    (AiCore.retry_llm_call f j max_retries bd').calls = max_retries := by
  obtain ⟨k, rfl⟩ : ∃ k, max_retries = k + 1 := ⟨max_retries - 1, by omega⟩
  have h1 := mainfunc_retry_loop_err_all f e jq jo bd hf k 0
  have h2 := aicore_retry_loop_err_all f e j bd' hf k 0
  unfold Mainfunc.retry_llm_call AiCore.retry_llm_call
  refine ⟨by simpa using h1.1, by simpa using h1.2, by simpa using h2.1, by simpa using h2.2⟩

/-- C7 witness: with `max_retries = 2` and a call failing twice, both
helpers invoke it twice and raise the error. -/
theorem c7_witness :
    (Mainfunc.retry_llm_call (fun _ => CallOutcome.err (α := Nat) "boom")
        (fun _ => 0) (fun _ => 0) 2 2).result = RetryResult.raised "boom" ∧
    (Mainfunc.retry_llm_call (fun _ => CallOutcome.err (α := Nat) "boom")
        (fun _ => 0) (fun _ => 0) 2 2).calls = 2 ∧
    (AiCore.retry_llm_call (fun _ => CallOutcome.err (α := Nat) "boom")
        (fun _ => 0) 2 1).result = RetryResult.raised "boom" ∧
    (AiCore.retry_llm_call (fun _ => CallOutcome.err (α := Nat) "boom")
        (fun _ => 0) 2 1).calls = 2 :=
  c7_retry_exhaustion_raises (fun _ => CallOutcome.err "boom") (fun _ => "boom")
    (fun _ => 0) (fun _ => 0) (fun _ => 0) 2 1 2 (by omega) (fun _ => rfl)

/-- C8: whatever the generation service does — raising (including retry
exhaustion), returning `None`, malformed JSON, a non-list `queries` value,
or a well-formed list — `generate_search_queries_from_email` returns a
list to its caller and never propagates an exception. -/
theorem c8_planner_never_raises :
    ∀ c : PlannerCall, ∃ l : List String, generate_search_queries_from_email c = Except.ok l := by
  intro c
  cases c with
  | raises m => exact ⟨[], rfl⟩
  | returnsNone => exact ⟨[], rfl⟩
  | returns r =>
    cases r with
    | malformed => exact ⟨[], rfl⟩
    | parsed o =>
      cases o with
      | none => exact ⟨[], rfl⟩
      | some qv =>
        cases qv with
        | nonList => exact ⟨[], rfl⟩
        | pyList qs => exact ⟨qs.take 8, rfl⟩

/-- C3: at the failing input — retrieval raising a quota error on the
first attempt and succeeding on the second (`N = 1`, `max_retries = 3`) —
`mainfunc.get_rag_context` does not retry and return the success value as
the claim requires: it makes exactly one retrieval call and returns
`_handle_quota_exhaustion`'s continue-retrying signal `(None, [])` to its
caller.  By contrast `mainfunc._retry_llm_call` behaves as claimed on the
analogous input, returning the success value after exactly two calls. -/
theorem c3_quota_retry_divergence :
    ((Mainfunc.get_rag_context "Jak dlouho trva vraceni zbozi?" (some "projects/p/corpora/1")
        (fun a => if a = 0 then RagAttempt.resourceExhausted "429 Quota exceeded"
          else RagAttempt.ok [⟨"Vraceni do 30 dnu.", some "policy.pdf"⟩])
        (fun _ => 0) (fun _ => 0) 3).context = none ∧
      (Mainfunc.get_rag_context "Jak dlouho trva vraceni zbozi?" (some "projects/p/corpora/1")
        (fun a => if a = 0 then RagAttempt.resourceExhausted "429 Quota exceeded"
          else RagAttempt.ok [⟨"Vraceni do 30 dnu.", some "policy.pdf"⟩])
        (fun _ => 0) (fun _ => 0) 3).sources = [] ∧
      (Mainfunc.get_rag_context "Jak dlouho trva vraceni zbozi?" (some "projects/p/corpora/1")
        (fun a => if a = 0 then RagAttempt.resourceExhausted "429 Quota exceeded"
          else RagAttempt.ok [⟨"Vraceni do 30 dnu.", some "policy.pdf"⟩])
        (fun _ => 0) (fun _ => 0) 3).calls = 1) ∧
    ((Mainfunc.retry_llm_call
        (fun a => if a = 0 then CallOutcome.quota "429 Quota exceeded" else CallOutcome.ok 42)
        (fun _ => 0) (fun _ => 0) 3 2).result = RetryResult.value 42 ∧
      (Mainfunc.retry_llm_call
        (fun a => if a = 0 then CallOutcome.quota "429 Quota exceeded" else CallOutcome.ok 42)
        (fun _ => 0) (fun _ => 0) 3 2).calls = 2) := by
  refine ⟨⟨by decide, by decide, by decide⟩, by decide, by decide⟩

/-- C1 counterexample: with a sufficiently long query, a resolvable corpus,
and a retrieval call failing (non-quota) on all 3 attempts,
`mainfunc.get_rag_context` does not return the empty pair claimed: its
context is the non-empty hard-coded fallback string. -/
theorem c1_counterexample :
    (Mainfunc.get_rag_context "Jak dlouho trva vraceni zbozi?" (some "projects/p/corpora/1")
        (fun _ => RagAttempt.exception "network error") (fun _ => 0) (fun _ => 0) 3).context
      ≠ some "" := by decide

/-- C1 (amended): when the corpus cannot be located, both variants return
`("", [])`; when every retrieval attempt fails, `ai_core.get_rag_context`
returns `("", [])` (shown both for generic errors and for gecko-marked
quota errors, the only quota errors it retries), while
`mainfunc.get_rag_context` instead returns its non-empty fallback context
paired with an empty source list. -/
theorem c1_amended_degenerate_returns :
    (∀ (q : String) (oracle : Nat → RagAttempt) (jq js : Nat → ℚ) (mr : Nat),
      (Mainfunc.get_rag_context q none oracle jq js mr).context = some "" ∧
      (Mainfunc.get_rag_context q none oracle jq js mr).sources = []) ∧
    (∀ (q : String) (oracle : Nat → RagAttempt) (ranker : Option String) (mr : Nat),
      (AiCore.get_rag_context q none oracle ranker mr).result = Except.ok ("", [])) ∧
    (∀ (q : String) (corpus : Option String) (oracle : Nat → RagAttempt)
        (ranker : Option String) (mr : Nat) (e : Nat → String),
      (∀ a, oracle a = RagAttempt.exception (e a)) →
      (AiCore.get_rag_context q corpus oracle ranker mr).result = Except.ok ("", [])) ∧
    (∀ (q : String) (corpus : Option String) (oracle : Nat → RagAttempt)
        (ranker : Option String) (mr : Nat) (m : Nat → String),
      (∀ a, oracle a = RagAttempt.resourceExhausted (m a) ∧
        strContains (m a) "textembedding-gecko" = true) →
      (AiCore.get_rag_context q corpus oracle ranker mr).result = Except.ok ("", [])) ∧
    (∀ (q c : String) (oracle : Nat → RagAttempt) (jq js : Nat → ℚ) (mr : Nat) (e : Nat → String),
      ¬(q = "" ∨ (pyStrip q).length < 10) →
      (∀ a, oracle a = RagAttempt.exception (e a)) →
      (Mainfunc.get_rag_context q (some c) oracle jq js mr).context
          = some (create_fallback_context q) ∧
      (Mainfunc.get_rag_context q (some c) oracle jq js mr).sources = []) := by
  refine ⟨?_, ?_, ?_, ?_, ?_⟩
  · intro q oracle jq js mr
    unfold Mainfunc.get_rag_context
    by_cases hq : q = "" ∨ (pyStrip q).length < 10
    · rw [if_pos hq]
      exact ⟨rfl, rfl⟩
    · rw [if_neg hq]
      exact ⟨rfl, rfl⟩
  · intro q oracle ranker mr
    rfl
  · intro q corpus oracle ranker mr e hf
    cases corpus with
    | none => rfl
    | some c =>
      unfold AiCore.get_rag_context
      exact aicore_rag_loop_exception_all q oracle ranker e hf mr 0
  · intro q corpus oracle ranker mr m hf
    cases corpus with
    | none => rfl
    | some c =>
      unfold AiCore.get_rag_context
      exact aicore_rag_loop_gecko_all q oracle ranker m hf mr 0
  · intro q c oracle jq js mr e hq hf
    unfold Mainfunc.get_rag_context
    rw [if_neg hq]
    exact mainfunc_rag_loop_exception_all q oracle jq js e hf mr 0

/-- C1 witness: concrete instances of the amended claim — retry exhaustion
yields the fallback context in the mainfunc variant and `("", [])` in the
ai_core variant. -/
theorem c1_amended_witness :
    (Mainfunc.get_rag_context "Jak dlouho trva vraceni zbozi." (some "corp")
        (fun _ => RagAttempt.exception "net") (fun _ => 0) (fun _ => 0) 3).context
      = some (create_fallback_context "Jak dlouho trva vraceni zbozi.") ∧
    (AiCore.get_rag_context "Jak dlouho trva vraceni zbozi." (some "corp")
        (fun _ => RagAttempt.exception "net") none 3).result = Except.ok ("", []) := by
  constructor
  · exact (c1_amended_degenerate_returns.2.2.2.2 "Jak dlouho trva vraceni zbozi." "corp"
      (fun _ => RagAttempt.exception "net") (fun _ => 0) (fun _ => 0) 3 (fun _ => "net")
      (by decide) (fun _ => rfl)).1
  · exact c1_amended_degenerate_returns.2.2.1 "Jak dlouho trva vraceni zbozi." (some "corp")
      (fun _ => RagAttempt.exception "net") none 3 (fun _ => "net") (fun _ => rfl)

set_option maxRecDepth 8192 in
/-- C2 counterexample: with one query whose retrieval fails on all
attempts, the mainfunc pipeline's consolidated context equals the
hard-coded fallback context — a non-empty text that the retrieval service
never returned. -/
theorem c2_counterexample :
    (runMessageRag ["Jak dlouho trva vraceni zbozi?"]
        (fun q =>
          let t := Mainfunc.get_rag_context q (some "projects/p/corpora/1")
            (fun _ => RagAttempt.exception "network error") (fun _ => 0) (fun _ => 0) 3
          (t.context, t.sources))).1
      = create_fallback_context "Jak dlouho trva vraceni zbozi?" ∧
    create_fallback_context "Jak dlouho trva vraceni zbozi?" ≠ "" := by
  exact ⟨by decide, by decide⟩

/-- C2 (amended): every block of the consolidated context comes from one of
the per-query results; a context returned by `mainfunc.get_rag_context` is
empty, the fixed fallback context, or the processed form of chunks actually
returned by the retrieval service; a context/source pair returned by
`ai_core.get_rag_context` is `("", [])` or the processed form of actually
returned chunks — so only the mainfunc fallback path can surface text that
the retrieval service did not return. -/
theorem c2_amended_traceability :
    (∀ (rs : List (Option String × List String)) (c : String),
      c ∈ consolidatedBlocks rs → ∃ p, p ∈ rs ∧ p.1 = some c) ∧
    (∀ (q : String) (corpus : Option String) (oracle : Nat → RagAttempt) (jq js : Nat → ℚ)
        (mr : Nat) (ctx : String),
      (Mainfunc.get_rag_context q corpus oracle jq js mr).context = some ctx →
      ctx = "" ∨ ctx = create_fallback_context q ∨
      ∃ a chunks, oracle a = RagAttempt.ok chunks ∧ ctx = (process_rag_response chunks).1) ∧
    (∀ (q : String) (corpus : Option String) (oracle : Nat → RagAttempt)
        (ranker : Option String) (mr : Nat) (ctx : String) (srcs : List String),
      (AiCore.get_rag_context q corpus oracle ranker mr).result = Except.ok (ctx, srcs) →
      (ctx = "" ∧ srcs = []) ∨
      ∃ a chunks, oracle a = RagAttempt.ok chunks ∧ (ctx, srcs) = process_rag_response chunks) := by
  refine ⟨consolidatedBlocks_mem, ?_, ?_⟩
  · intro q corpus oracle jq js mr ctx h
    unfold Mainfunc.get_rag_context at h
    by_cases hq : q = "" ∨ (pyStrip q).length < 10
    · rw [if_pos hq] at h
      have h2 : some "" = some ctx := h
      exact Or.inl (Option.some_inj.mp h2).symm
    · rw [if_neg hq] at h
      cases corpus with
      | none =>
        have h2 : some "" = some ctx := h
        exact Or.inl (Option.some_inj.mp h2).symm
      | some c =>
        have h2 : (Mainfunc.rag_loop q oracle jq js mr 0).context = some ctx := h
        rcases mainfunc_rag_loop_context_trace q oracle jq js mr 0 ctx h2 with h1 | ⟨a, chunks, ha, hc⟩
        · exact Or.inr (Or.inl h1)
        · exact Or.inr (Or.inr ⟨a, chunks, ha, hc⟩)
  · intro q corpus oracle ranker mr ctx srcs h
    cases corpus with
    | none =>
      have h2 : Except.ok (("" : String), ([] : List String)) = Except.ok (ctx, srcs) := h
      have h3 := Except.ok.inj h2
      exact Or.inl ⟨(congrArg Prod.fst h3).symm, (congrArg Prod.snd h3).symm⟩
    | some c =>
      have h2 : (AiCore.rag_loop q oracle ranker mr 0).result = Except.ok (ctx, srcs) := h
      rcases aicore_rag_loop_result_trace q oracle ranker mr 0 (ctx, srcs) h2 with h1 | ⟨a, chunks, ha, hp⟩
      · exact Or.inl ⟨congrArg Prod.fst h1, congrArg Prod.snd h1⟩
      · exact Or.inr ⟨a, chunks, ha, hp⟩

/-- C2 witness: concrete instances of all three traceability conjuncts. -/
theorem c2_amended_witness :
    (∃ p, p ∈ [((some "A" : Option String), ["s1"])] ∧ p.1 = some "A") ∧
    ("[SOURCE_0 (policy.pdf)]\nVraceni do 30 dnu." = "" ∨
      "[SOURCE_0 (policy.pdf)]\nVraceni do 30 dnu."
        = create_fallback_context "Jak dlouho trva vraceni zbozi?" ∨
      ∃ a chunks,
        (fun _ : Nat => RagAttempt.ok [⟨"Vraceni do 30 dnu.", some "policy.pdf"⟩]) a
          = RagAttempt.ok chunks ∧
        "[SOURCE_0 (policy.pdf)]\nVraceni do 30 dnu." = (process_rag_response chunks).1) ∧
    ((("" : String) = "" ∧ ([] : List String) = []) ∨
      ∃ a chunks,
        (fun _ : Nat => RagAttempt.exception "net") a = RagAttempt.ok chunks ∧
        (("" : String), ([] : List String)) = process_rag_response chunks) := by
  refine ⟨c2_amended_traceability.1 [((some "A" : Option String), ["s1"])] "A" (by decide),
    c2_amended_traceability.2.1 "Jak dlouho trva vraceni zbozi?" (some "corp")
      (fun _ => RagAttempt.ok [⟨"Vraceni do 30 dnu.", some "policy.pdf"⟩])
      (fun _ => 0) (fun _ => 0) 3 "[SOURCE_0 (policy.pdf)]\nVraceni do 30 dnu." (by decide),
    c2_amended_traceability.2.2 "Jak dlouho trva vraceni zbozi?" (some "corp")
      (fun _ => RagAttempt.exception "net") none 3 "" [] (by decide)⟩

/-- C4 counterexample: two queries whose retrieval responses both contain
the identical chunk text `"X"` (from different source files).  The
consolidated context contains `'X'` twice — per-query context blocks, not
chunk texts, are what gets deduplicated — though both sources are recorded
as the claim says. -/
theorem c4_counterexample :
    ((runMessageRag ["What is the price of it?", "How fast can you ship it?"]
        (fun q =>
          let t := Mainfunc.get_rag_context q (some "corp")
            (fun _ => if q = "What is the price of it?" then RagAttempt.ok [⟨"X", some "a.pdf"⟩]
              else RagAttempt.ok [⟨"X", some "b.pdf"⟩])
            (fun _ => 0) (fun _ => 0) 3
          (t.context, t.sources))).1.toList.count 'X' = 2) ∧
    (runMessageRag ["What is the price of it?", "How fast can you ship it?"]
        (fun q =>
          let t := Mainfunc.get_rag_context q (some "corp")
            (fun _ => if q = "What is the price of it?" then RagAttempt.ok [⟨"X", some "a.pdf"⟩]
              else RagAttempt.ok [⟨"X", some "b.pdf"⟩])
            (fun _ => 0) (fun _ => 0) 3
          (t.context, t.sources))).2 = ["a.pdf", "b.pdf"] := by
  exact ⟨by decide, by decide⟩

/-- C4 (amended): deduplication operates on whole per-query context
strings: when two per-query results carry the same non-empty context
string, consolidation keeps that string exactly once while still recording
the sources of both occurrences, in order. -/
theorem c4_amended_block_dedup (c : String) (s1 s2 : List String) (hc : c ≠ "") :
    consolidate [(some c, s1), (some c, s2)] = (c, s1 ++ s2) := by
  have h1 : consolidatedBlocks [(some c, s1), (some c, s2)] = [c] := by
    unfold consolidatedBlocks dedupFirstSeen
    simp [hc, dedupStep]
  unfold consolidate
  rw [h1]
  refine Prod.ext ?_ ?_
  · rfl
  · simp

/-- C4 witness: a concrete duplicated context block. -/
theorem c4_amended_witness :
    consolidate [(some "B", ["x"]), (some "B", ["y"])] = ("B", ["x"] ++ ["y"]) :=
  c4_amended_block_dedup "B" ["x"] ["y"] (by decide)

/-- C5 counterexample: `ai_core.get_rag_context` has no minimum-length
check: on the query `"short"` (stripped length 5 < 10) it still issues a
retrieval call and returns a non-empty context with a source, contradicting
the claim that short queries are skipped with no call and `("", [])`. -/
theorem c5_counterexample :
    (AiCore.get_rag_context "short" (some "corp")
        (fun _ => RagAttempt.ok [⟨"AlzaConnect hub info", none⟩]) none 3).calls = 1 ∧
    (AiCore.get_rag_context "short" (some "corp")
        (fun _ => RagAttempt.ok [⟨"AlzaConnect hub info", none⟩]) none 3).result
      = Except.ok ("[SOURCE_0]\nAlzaConnect hub info", ["internal_doc_0"]) := by
  exact ⟨by decide, by decide⟩

/-- C5 (amended): `mainfunc.get_rag_context` skips queries whose stripped
length is below 10 without issuing any retrieval request and returns
`("", [])`; the ai_core variant has no such check, but every retrieval
request either variant issues carries the stripped query with `top_k = 3`
— always with the LLM reranking configuration in mainfunc, and with it
exactly when a ranker model is configured in ai_core — and
`_process_rag_response` truncates every response to its first 3 chunks. -/
theorem c5_amended_retrieval_config :
    (∀ (q : String) (corpus : Option String) (oracle : Nat → RagAttempt) (jq js : Nat → ℚ)
        (mr : Nat),
      (pyStrip q).length < 10 →
      Mainfunc.get_rag_context q corpus oracle jq js mr = ⟨some "", [], 0, [], []⟩) ∧
    (∀ (q : String) (corpus : Option String) (oracle : Nat → RagAttempt) (jq js : Nat → ℚ)
        (mr : Nat) (r : RagRequest),
      r ∈ (Mainfunc.get_rag_context q corpus oracle jq js mr).requests →
      r = ⟨pyStrip q, 3, true⟩) ∧
    (∀ (q : String) (corpus : Option String) (oracle : Nat → RagAttempt) (ranker : Option String)
        (mr : Nat) (r : RagRequest),
      r ∈ (AiCore.get_rag_context q corpus oracle ranker mr).requests →
      r = ⟨pyStrip q, 3, ranker.isSome⟩) ∧
    (∀ chunks : List RagChunk, process_rag_response chunks = process_rag_response (chunks.take 3)) := by
  refine ⟨?_, ?_, ?_, process_rag_response_take3⟩
  · intro q corpus oracle jq js mr hlen
    unfold Mainfunc.get_rag_context
    rw [if_pos (Or.inr hlen)]
  · intro q corpus oracle jq js mr r hr
    unfold Mainfunc.get_rag_context at hr
    by_cases hq : q = "" ∨ (pyStrip q).length < 10
    · rw [if_pos hq] at hr
      have h2 : r ∈ ([] : List RagRequest) := hr
      simp at h2
    · rw [if_neg hq] at hr
      cases corpus with
      | none =>
        have h2 : r ∈ ([] : List RagRequest) := hr
        simp at h2
      | some c =>
        have h2 : r ∈ (Mainfunc.rag_loop q oracle jq js mr 0).requests := hr
        exact mainfunc_rag_loop_requests q oracle jq js mr 0 r h2
  · intro q corpus oracle ranker mr r hr
    cases corpus with
    | none =>
      have h2 : r ∈ ([] : List RagRequest) := hr
      simp at h2
    | some c =>
      have h2 : r ∈ (AiCore.rag_loop q oracle ranker mr 0).requests := hr
      exact aicore_rag_loop_requests q oracle ranker mr 0 r h2

/-- C5 witness: concrete instances — a short query is skipped by the
mainfunc variant, and concrete issued requests have the claimed shape. -/
theorem c5_amended_witness :
    (Mainfunc.get_rag_context "short" (some "corp")
        (fun _ => RagAttempt.ok []) (fun _ => 0) (fun _ => 0) 3 = ⟨some "", [], 0, [], []⟩) ∧
    (⟨"Jak dlouho trva vraceni zbozi?", 3, true⟩ : RagRequest)
      = ⟨pyStrip "Jak dlouho trva vraceni zbozi?", 3, true⟩ ∧
    (⟨"Jak dlouho trva vraceni zbozi?", 3, false⟩ : RagRequest)
      = ⟨pyStrip "Jak dlouho trva vraceni zbozi?", 3, (none : Option String).isSome⟩ := by
  refine ⟨c5_amended_retrieval_config.1 "short" (some "corp")
      (fun _ => RagAttempt.ok []) (fun _ => 0) (fun _ => 0) 3 (by decide),
    c5_amended_retrieval_config.2.1 "Jak dlouho trva vraceni zbozi?" (some "corp")
      (fun _ => RagAttempt.ok []) (fun _ => 0) (fun _ => 0) 3
      ⟨"Jak dlouho trva vraceni zbozi?", 3, true⟩ (by decide),
    c5_amended_retrieval_config.2.2.1 "Jak dlouho trva vraceni zbozi?" (some "corp")
      (fun _ => RagAttempt.ok []) none 3
      ⟨"Jak dlouho trva vraceni zbozi?", 3, false⟩ (by decide)⟩

theorem chunkEntry_uriless (i : Nat) (c : RagChunk) (ht : c.text ≠ "")
    (hu : c.source_uri = none ∨ c.source_uri = some "") :
    chunkEntry i c
      = some ("[SOURCE_" ++ toString i ++ "]\n" ++ pyStrip c.text,
          "internal_doc_" ++ toString i) := by
  unfold chunkEntry
  rw [if_neg ht]
  rcases hu with hu | hu
  · rw [hu]
  · rw [hu]
    rfl

/-- C9: a URI-less chunk's synthetic identifier is `internal_doc_<i>` with
`i` the chunk's index inside its own query's response, so URI-less chunks
at the same index in two different responses — however distinct their
texts — receive the same identifier; the identifier is recorded in
`_process_rag_response`'s source list, and the citation footer's
`dict.fromkeys` deduplication collapses all its occurrences into exactly
one entry. -/
theorem c9_internal_doc_index_collision :
    ∀ (i : Nat) (c1 c2 : RagChunk),
      c1.text ≠ "" → c2.text ≠ "" →
      (c1.source_uri = none ∨ c1.source_uri = some "") →
      (c2.source_uri = none ∨ c2.source_uri = some "") →
      (chunkEntry i c1).map Prod.snd = some ("internal_doc_" ++ toString i) ∧
      (chunkEntry i c2).map Prod.snd = some ("internal_doc_" ++ toString i) ∧
      (∀ chunks : List RagChunk, i < 3 → chunks[i]? = some c1 →
        ("internal_doc_" ++ toString i) ∈ (process_rag_response chunks).2) ∧
      (∀ l : List String, ("internal_doc_" ++ toString i) ∈ l →
        (dedupFirstSeen l).count ("internal_doc_" ++ toString i) = 1) := by
  intro i c1 c2 ht1 ht2 hu1 hu2
  have he1 := chunkEntry_uriless i c1 ht1 hu1
  have he2 := chunkEntry_uriless i c2 ht2 hu2
  refine ⟨by rw [he1]; rfl, by rw [he2]; rfl, ?_, ?_⟩
  · intro chunks h3 hget
    have hne : chunks ≠ [] := by
      rintro rfl
      simp at hget
    have hmem : (i, c1) ∈ (chunks.take 3).enum := by
      rw [List.mk_mem_enum_iff_getElem?, List.getElem?_take, if_pos h3]
      exact hget
    have hpair : ("[SOURCE_" ++ toString i ++ "]\n" ++ pyStrip c1.text,
        "internal_doc_" ++ toString i)
        ∈ (chunks.take 3).enum.filterMap (fun p => chunkEntry p.1 p.2) :=
      List.mem_filterMap.mpr ⟨(i, c1), hmem, he1⟩
    have hfst : ("[SOURCE_" ++ toString i ++ "]\n" ++ pyStrip c1.text)
        ∈ ((chunks.take 3).enum.filterMap (fun p => chunkEntry p.1 p.2)).map Prod.fst :=
      List.mem_map_of_mem Prod.fst hpair
    unfold process_rag_response
    rw [if_neg hne, if_neg (List.ne_nil_of_mem hfst)]
    exact List.mem_map_of_mem Prod.snd hpair
  · intro l hl
    exact count_dedupFirstSeen l _ hl

/-- C9 witness: two distinct URI-less chunks at index 0 of their responses
share the identifier `internal_doc_0`, it is recorded for a concrete
response, and the footer's deduplication keeps one entry. -/
theorem c9_witness :
    (chunkEntry 0 ⟨"Chunk one", none⟩).map Prod.snd = some ("internal_doc_" ++ toString 0) ∧
    (chunkEntry 0 ⟨"Chunk two", some ""⟩).map Prod.snd = some ("internal_doc_" ++ toString 0) ∧
    (∀ chunks : List RagChunk, 0 < 3 → chunks[0]? = some ⟨"Chunk one", none⟩ →
      ("internal_doc_" ++ toString 0) ∈ (process_rag_response chunks).2) ∧
    (∀ l : List String, ("internal_doc_" ++ toString 0) ∈ l →
      (dedupFirstSeen l).count ("internal_doc_" ++ toString 0) = 1) :=
  c9_internal_doc_index_collision 0 ⟨"Chunk one", none⟩ ⟨"Chunk two", some ""⟩
    (by decide) (by decide) (Or.inl rfl) (Or.inr rfl)

/-- C10 counterexample: the reply body `"hi "` does not end in `"</div>"`,
yet it is not preserved unchanged as a prefix of the post-processor's
output — the trailing space is stripped before the disclaimer is
appended. -/
theorem c10_counterexample :
    ("</div>".data.isSuffixOf "hi ".data) = false ∧
    ("hi ".data.isPrefixOf (add_responsible_ai_disclaimer "hi " []).data) = false := by
  exact ⟨by decide, by decide⟩

/-- C10 (amended): the post-processor right-strips the body; when the
stripped body does not end in `"</div>"` it is preserved unchanged as a
prefix of the output, the disclaimer block being appended after it; when it
does, exactly those six characters are removed before the append; and the
appended block itself ends in `"</div>"`. -/
theorem c10_amended_disclaimer_append :
    ∀ (body : String) (sources : List String),
      ("</div>".data.isSuffixOf (disclaimerBlock sources).data) = true ∧
      (("</div>".data.isSuffixOf (pyRstrip body).data) = false →
        add_responsible_ai_disclaimer body sources = pyRstrip body ++ disclaimerBlock sources ∧
        (pyRstrip body).data <+: (add_responsible_ai_disclaimer body sources).data) ∧
      (("</div>".data.isSuffixOf (pyRstrip body).data) = true →
        add_responsible_ai_disclaimer body sources
          = (⟨(pyRstrip body).data.take ((pyRstrip body).data.length - 6)⟩ : String)
              ++ disclaimerBlock sources) := by
  intro body sources
  refine ⟨?_, ?_, ?_⟩
  · unfold disclaimerBlock
    rw [List.isSuffixOf_iff_suffix, String.data_append]
    have h1 : "</div>".data <:+
        ("\n\n<hr style=\"margin: 20px 0; border: none; border-top: 1px solid #e0e0e0;\">\n<p style=\"font-size: 11px; color: #666; text-align: center; line-height: 1.4;\">\n<em>🤖 Tato odpověď byla vygenerována umělou inteligencí. AI modely mohou dělat chyby, proto prosím ověřte si důležité informace přímo s našimi experty.<br>\nGoogle AI models may make mistakes, so double-check outputs.</em>\n</p>\n</div>" : String).data := by
      decide
    exact h1.trans (List.suffix_append _ _)
  · intro hs
    constructor
    · simp only [add_responsible_ai_disclaimer, hs, Bool.false_eq_true, if_false]
    · simp only [add_responsible_ai_disclaimer, hs, Bool.false_eq_true, if_false,
        String.data_append]
      exact List.prefix_append _ _
  · intro hs
    simp only [add_responsible_ai_disclaimer, hs, eq_self_iff_true, if_true]

/-- C10 witness: at the body `"hi "` the stripped form `"hi"` is a prefix
of the output. -/
theorem c10_amended_witness :
    add_responsible_ai_disclaimer "hi " [] = pyRstrip "hi " ++ disclaimerBlock [] ∧
    (pyRstrip "hi ").data <+: (add_responsible_ai_disclaimer "hi " []).data :=
  (c10_amended_disclaimer_append "hi " []).2.1 (by decide)
